import Mathlib

/-!
Verification of the options-pricing repository (AAWorks/options-pricing).

Shallow embedding of the two core source files:
* `src/models/abstract.py` — the `Option` contract base class: construction
  from a raw parameter mapping, normalization of the maturity date into
  years, and the read-only accessor properties.
* `src/models/baseline_tfa_dqn.py` — `TFAModel`, the DQN training
  controller: agent lifecycle, replay buffer, training iterations with
  periodic logging/evaluation, and NPV estimation from policy rollouts.

Python `date` values are modelled as integer day counts; Python floats as
exact rationals (`Rat`); a Python `dict` restricted to the keys the code
reads as a structure of `Option`-valued fields (`none` = key absent); a
raised Python exception as the `Except` error branch.
-/

namespace OptionsPricing

/-- A raised Python exception. `exception msg` models `raise Exception(msg)`;
`attributeError` models the `AttributeError` raised by an attribute access
on `None` (e.g. `self._agent.policy` when `self._agent is None`). -/
inductive PyErr where
  | exception (msg : String)
  | attributeError
deriving DecidableEq, Repr

/-! ## src/models/abstract.py -/

/-- The raw parameter mapping handed to `Option.__init__`, restricted to
the keys the constructor reads.  A field holding `none` models that key
being absent from the dict, so that the corresponding `params[...]` access
raises `KeyError`.  `maturity` is a calendar date, modelled as a day
count. -/
structure Params where
  maturity : Option Int
  option_type : Option String
  spot : Option Rat
  strike : Option Rat
  implied_volatility : Option Rat
  risk_free_rate : Option Rat
  dividend_rate : Option Rat
deriving DecidableEq, Repr

/-- The state of a constructed `Option` object: the private attributes
`self._name`, `self._option_type`, `self._spot`, `self._strike`,
`self._time`, `self._iv`, `self._r`, `self._d` assigned in `__init__`. -/
structure OptionContract where
  name : String
  option_type : String
  spot : Rat
  strike : Rat
  time : Rat
  iv : Rat
  r : Rat
  d : Rat
deriving DecidableEq, Repr

/-- A `params[key]` dict access inside the `try` block of
`Option.__init__`: a missing key raises `KeyError`, which the
`except Exception` clause converts into `raise Exception("Missing Params")`. -/
def getKey (v : Option α) : Except PyErr α :=
  match v with
  | some x => .ok x
  | none => .error (.exception "Missing Params")

/-- Embeds `Option.__init__(self, params, with_tensors=False, name="BaseOption")`
from `src/models/abstract.py` (lines 10–29), with `with_tensors=False` so
parameter values stay plain numbers (the tensor branch only wraps the same
numeric values).  `today` models the `date.today()` call: the valuation
date as a day count.  The constructor

* reads `params["maturity"]` and overwrites that entry with
  `(maturity - date.today()) / timedelta(days=365)`,
* reads `params["option_type"]`,
* then copies `spot`, `strike`, the overwritten `maturity` (into
  `self._time`), `implied_volatility`, `risk_free_rate` and
  `dividend_rate` into private attributes.

Any missing key makes the whole block raise `Exception("Missing Params")`.
No value-range check of any kind is performed. -/
def Option_init (params : Params) (today : Int) (name : String := "BaseOption") :
    Except PyErr OptionContract := do
  let m ← getKey params.maturity
  let maturity_years : Rat := ((m - today : Int) : Rat) / 365
  let ot ← getKey params.option_type
  let sp ← getKey params.spot
  let k ← getKey params.strike
  let iv ← getKey params.implied_volatility
  let rfr ← getKey params.risk_free_rate
  let dr ← getKey params.dividend_rate
  .ok { name := name, option_type := ot, spot := sp, strike := k,
        time := maturity_years, iv := iv, r := rfr, d := dr }

/-- Property `strike_price` (returns `self._strike`). -/
def OptionContract.strike_price (o : OptionContract) : Rat := o.strike

/-- Property `spot_price` (returns `self._spot`). -/
def OptionContract.spot_price (o : OptionContract) : Rat := o.spot

/-- Property `implied_volatility` (returns `self._iv`). -/
def OptionContract.implied_volatility (o : OptionContract) : Rat := o.iv

/-- Property `risk_free_rate` (returns `self._r`). -/
def OptionContract.risk_free_rate (o : OptionContract) : Rat := o.r

/-- Property `dividend_rate` (returns `self._d`). -/
def OptionContract.dividend_rate (o : OptionContract) : Rat := o.d

/-- All seven required keys are present in the mapping. -/
def Params.allPresent (p : Params) : Prop :=
  p.maturity.isSome ∧ p.option_type.isSome ∧ p.spot.isSome ∧ p.strike.isSome ∧
  p.implied_volatility.isSome ∧ p.risk_free_rate.isSome ∧ p.dividend_rate.isSome

instance (p : Params) : Decidable p.allPresent := by
  unfold Params.allPresent; infer_instance

/-! ## src/models/baseline_tfa_dqn.py

The controller `TFAModel` is embedded generically over the types supplied
by its external collaborators: `E` the (wrapped) gym environment state,
`T` a time step / observation, `A` an action, `Q` the weights of the
Q-network.  The behaviour of those collaborators (environment dynamics,
policies, the optimizer step, replay-buffer sampling, episode rollouts)
is bundled in a `Collab` record of functions; the controller's own control
flow — the part this file verifies — is translated statement by statement
from the source.  Streamlit display calls (`st.progress`, `st.error`, …)
and the `debugging` file writes are pure I/O with no effect on controller
state and are not modelled (`debugging = False`). -/

/-- Embeds `trajectory.from_transition(time_step, action_step, next_time_step)`:
the transition record pushed into the replay buffer. -/
structure Traj (T A : Type) where
  obs : T
  act : A
  next : T
deriving DecidableEq, Repr

/-- The external collaborators of `TFAModel`: environment dynamics,
the agent's two policies, the optimizer step with its loss, dataset
sampling, and the realized discounted reward of an evaluation episode. -/
structure Collab (E T A Q : Type) where
  obs : E → T
  stepE : E → A → E
  initQ : Q
  policyFn : Q → T → A
  collectFn : Q → T → A
  trainQ : Q → List (Traj T A) → Q
  lossQ : Q → List (Traj T A) → Rat
  sample : List (Traj T A) → Nat → List (Traj T A)
  episodeReward : (T → A) → Nat → Rat

/-- The DQN agent built by `init_agent`: its network weights and the
`train_step_counter` variable (a `tf.Variable` starting at 0, incremented
by one on each `agent.train` call). -/
structure AgentT (Q : Type) where
  q : Q
  train_step_counter : Nat
deriving DecidableEq, Repr

/-- Embeds `TFUniformReplayBuffer`: a FIFO store of trajectories bounded by
`max_length` (oldest entries evicted once at capacity). -/
structure RBuf (T A : Type) where
  max_length : Nat
  data : List (Traj T A)
deriving DecidableEq, Repr

/-- Embeds `buffer.add_batch(trj)`: append one trajectory, evicting from the
front if capacity is exceeded. -/
def RBuf.add_batch (b : RBuf T A) (t : Traj T A) : RBuf T A :=
  let d := b.data ++ [t]
  { b with data := if b.max_length < d.length then d.drop (d.length - b.max_length) else d }

/-- An attribute access `v.attr` where `v` may be Python `None`:
raises `AttributeError` on `None`. -/
def ofAttr (v : Option α) : Except PyErr α :=
  match v with
  | some x => .ok x
  | none => .error .attributeError

/-- The mutable state of a `TFAModel` instance: the hyperparameters fixed
in `__init__` and the attributes `_agent`, `_repl_buffer`, `_log`,
`_returns`, `_npv`, `_priced` (the `_log`/`_returns` attributes start as
Python `None` and are overwritten with fresh lists at the start of
`train` before any append; they are modelled as lists from the start). -/
structure TFAModel (E T A Q : Type) where
  num_iterations : Nat
  collect_steps_per_iteration : Nat
  replay_buffer_max_length : Nat
  batch_size : Nat
  num_eval_episodes : Nat
  eval_interval : Nat
  log_interval : Nat
  n_sims : Nat
  train_env : E
  eval_env : E
  agent : Option (AgentT Q)
  repl_buffer : Option (RBuf T A)
  log : List (String × String)
  returns : List Rat
  npv : Option Rat
  priced : Bool
deriving DecidableEq

/-- Embeds `TFAModel.__init__` with the source's default hyperparameters:
stores the hyperparameters, sets up the train/eval environments
(`_setup_envs`), and initializes `_agent`, `_repl_buffer`, `_npv` to
`None` and `_priced` to `False`. -/
def TFAModel_init (train_env eval_env : E)
    (iterations : Nat := 20) (steps_per_iter : Nat := 10)
    (repbuffer_len : Nat := 100000) (batch_size : Nat := 256)
    (n_eps : Nat := 10) (eval_interval : Nat := 5) (log_interval : Nat := 1)
    (n_sims : Nat := 10) : TFAModel E T A Q :=
  { num_iterations := iterations
    collect_steps_per_iteration := steps_per_iter
    replay_buffer_max_length := repbuffer_len
    batch_size := batch_size
    num_eval_episodes := n_eps
    eval_interval := eval_interval
    log_interval := log_interval
    n_sims := n_sims
    train_env := train_env
    eval_env := eval_env
    agent := none
    repl_buffer := none
    log := []
    returns := []
    npv := none
    priced := false }

/-- Embeds `init_agent`: builds the Q-network and the DQN agent with
`train_step_counter = tf.Variable(0)` and initializes it. -/
def TFAModel.init_agent (c : Collab E T A Q) (s : TFAModel E T A Q) :
    TFAModel E T A Q :=
  { s with agent := some { q := c.initQ, train_step_counter := 0 } }

/-- Embeds `_collect_step(env, policy, buffer)`: read the current time step, ask
the policy for an action, step the environment, and push the resulting
trajectory into the buffer.  Returns the new environment state and
buffer. -/
def collect_step (c : Collab E T A Q) (env : E) (policy : T → A)
    (buffer : RBuf T A) : E × RBuf T A :=
  let time_step := c.obs env
  let action := policy time_step
  let next_env := c.stepE env action
  let trj : Traj T A := { obs := time_step, act := action, next := c.obs next_env }
  (next_env, buffer.add_batch trj)

/-- A Python generator expression `(body() for _ in range(count))`:
evaluating the expression creates this object; the body runs only when
the generator is consumed (iterated). -/
structure GenExpr (σ : Type) where
  body : σ → σ
  count : Nat

/-- Consuming a generator runs its body once per element. -/
def GenExpr.consume (g : GenExpr σ) (s : σ) : σ := g.body^[g.count] s

/-- Embeds `_collect_data(env, policy, buffer, steps)`: the body is the single
statement `(self._collect_step(env, policy, buffer) for _ in range(steps))`,
which builds a generator object and discards it without consuming it, so
no collection step ever runs.  Returns the (unchanged) environment and
buffer. -/
def collect_data (c : Collab E T A Q) (env : E) (policy : T → A)
    (buffer : RBuf T A) (steps : Nat) : E × RBuf T A :=
  let _gen : GenExpr (E × RBuf T A) :=
    { body := fun p => collect_step c p.1 policy p.2, count := steps }
  (env, buffer)

/-- Embeds `build_replay_buffer`: fails when the agent has not been initialized,
otherwise allocates an empty `TFUniformReplayBuffer` of capacity
`_replay_buffer_max_length` (the derived dataset iterator is modelled by
`Collab.sample` at its point of use). -/
def TFAModel.build_replay_buffer (s : TFAModel E T A Q) :
    Except PyErr (TFAModel E T A Q) :=
  if s.agent.isNone then
    .error (.exception "Agent has not been initialized")
  else
    .ok { s with
          repl_buffer := some { max_length := s.replay_buffer_max_length, data := [] } }

/-- Arithmetic mean of a list of rationals (division by zero yields 0,
matching `Rat` division). -/
def listMean (xs : List Rat) : Rat := xs.sum / (xs.length : Rat)

/-- Population variance of a list of rationals: the square of the
standard deviation. -/
def listVar (xs : List Rat) : Rat :=
  ((xs.map (fun x => (x - listMean xs) ^ 2)).sum) / (xs.length : Rat)

/-- Per-episode rollout statistics: the mean of the realized discounted
episode rewards, the square of their standard deviation, and the episode
count. -/
structure SimStats where
  mean : Rat
  var : Rat
  count : Nat
deriving DecidableEq, Repr

/-- The realized discounted rewards of `eps` independent rollout
episodes, episode `i` yielding `reward i`. -/
def rollouts (reward : Nat → Rat) (eps : Nat) : List Rat :=
  (List.range eps).map reward

/-- Modelled from the spec: `dqn_sim` (defined in `models/monte_carlo.py`,
which is not part of the available source) rolls out the given policy on
the evaluation environment for `eps` independent simulated episodes and
returns the mean of the realized discounted episode rewards.  The rollout
of episode `i` is abstracted as `reward i` (in every call site `reward`
is `c.episodeReward` applied to the greedy policy `agent.policy`). -/
def dqn_sim (reward : Nat → Rat) (eps : Nat) : Rat :=
  listMean (rollouts reward eps)

/-- Modelled from the spec: `dqn_sim` with `st_display=True` additionally
reports per-episode statistics (mean, standard deviation — recorded here
as its square `var`, since square roots leave the rationals — and episode
count) alongside the mean it returns. -/
def dqn_sim_display (reward : Nat → Rat) (eps : Nat) : Rat × SimStats :=
  let xs := rollouts reward eps
  (listMean xs, { mean := listMean xs, var := listVar xs, count := xs.length })

/-- Embeds `_train_iteration`: runs `_collect_step` with the exploration policy
(`agent.collect_policy`) `collect_steps_per_iteration` times against the
training environment, samples one batch from the buffer iterator
(`next(self._iterator)`), performs one `agent.train` step (incrementing
`train_step_counter`), then — reading the new counter value `step` —
appends a loss entry to the log when `step % log_interval == 0` and, when
`step % eval_interval == 0`, evaluates the greedy policy (`agent.policy`)
over `num_eval_episodes` episodes via `dqn_sim`, logging and recording
the average return. -/
def TFAModel.train_iteration (c : Collab E T A Q) (s : TFAModel E T A Q) :
    Except PyErr (TFAModel E T A Q) := do
  let ag ← ofAttr s.agent
  let buf ← ofAttr s.repl_buffer
  let collected :=
    (fun p : E × RBuf T A => collect_step c p.1 (c.collectFn ag.q) p.2)^[s.collect_steps_per_iteration]
      (s.train_env, buf)
  let exp := c.sample (collected.2).data s.batch_size
  let train_loss := c.lossQ ag.q exp
  let ag2 : AgentT Q :=
    { q := c.trainQ ag.q exp, train_step_counter := ag.train_step_counter + 1 }
  let step := ag2.train_step_counter
  let log1 :=
    if step % s.log_interval == 0 then
      s.log ++ [("step = " ++ toString step, "loss = " ++ toString train_loss)]
    else s.log
  if step % s.eval_interval == 0 then
    let avg_return := dqn_sim (c.episodeReward (c.policyFn ag2.q)) s.num_eval_episodes
    .ok { s with train_env := collected.1, repl_buffer := some collected.2,
                 agent := some ag2,
                 log := log1 ++
                   [("step = " ++ toString step, "Average Return = " ++ toString avg_return)],
                 returns := s.returns ++ [avg_return] }
  else
    .ok { s with train_env := collected.1, repl_buffer := some collected.2,
                 agent := some ag2, log := log1 }

/-- The `for i in range(self._num_iterations)` loop of `train`: runs
`_train_iteration` the given number of times, propagating any raised
exception. -/
def TFAModel.train_loop (c : Collab E T A Q) :
    Nat → TFAModel E T A Q → Except PyErr (TFAModel E T A Q)
  | 0, s => .ok s
  | n + 1, s => do TFAModel.train_loop c n (← TFAModel.train_iteration c s)

/-- Embeds `train`: fails when the replay buffer has not been built; otherwise
resets `train_step_counter` to 0, computes an initial greedy-policy
evaluation, re-initializes `_log` and `_returns` with that initial entry,
and runs `_train_iteration` for `num_iterations` iterations (the
Streamlit progress bar is display-only). -/
def TFAModel.train (c : Collab E T A Q) (s : TFAModel E T A Q) :
    Except PyErr (TFAModel E T A Q) := do
  if s.repl_buffer.isNone then
    .error (.exception "Unbuilt replay buffer")
  else
    let ag ← ofAttr s.agent
    let ag0 : AgentT Q := { ag with train_step_counter := 0 }
    let avg_return := dqn_sim (c.episodeReward (c.policyFn ag0.q)) s.num_eval_episodes
    let s1 := { s with agent := some ag0,
                       log := [("Step = 0", "Average Return = " ++ toString avg_return)],
                       returns := [avg_return] }
    TFAModel.train_loop c s.num_iterations s1

/-- Python `range(start, stop, step)` for a positive `step`: the
arithmetic progression `start, start + step, …` strictly below `stop`. -/
def pyRange (start stop step : Nat) : List Nat :=
  (List.range ((stop - start + step - 1) / step)).map (fun i => start + step * i)

/-- Property `train_iteration_dict`: the chart data — the stringified
range `0, eval_interval, 2·eval_interval, … ≤ num_iterations` under key
`"Iterations"` and the recorded `_returns` under key `"Average Return"`. -/
def TFAModel.train_iteration_dict (s : TFAModel E T A Q) :
    List String × List Rat :=
  ((pyRange 0 (s.num_iterations + 1) s.eval_interval).map (fun n => toString n),
   s.returns)

/-- Embeds `calculate_npv`: evaluates `dqn_sim` on the greedy policy
(`self._agent.policy`) over `_n_sims` episodes with `st_display=True`,
stores the returned mean as `_npv`, and sets `_priced`.  The per-episode
statistics displayed by `dqn_sim` are returned alongside the new state. -/
def TFAModel.calculate_npv (c : Collab E T A Q) (s : TFAModel E T A Q) :
    Except PyErr (TFAModel E T A Q × SimStats) := do
  let ag ← ofAttr s.agent
  let r := dqn_sim_display (c.episodeReward (c.policyFn ag.q)) s.n_sims
  .ok ({ s with npv := some r.1, priced := true }, r.2)

/-- The iterated collection phase of `_train_iteration`: `n` successive
`_collect_step` calls with policy `pol`, threading the training
environment and the replay buffer. -/
def collectIter (c : Collab E T A Q) (pol : T → A) (n : Nat) :
    E × RBuf T A → E × RBuf T A :=
  (fun p => collect_step c p.1 pol p.2)^[n]

/-! ### Concrete instantiation

A degenerate instantiation of the collaborator types (`Unit` everywhere,
every episode reward 0) used to evaluate the controller's control flow on
concrete states. -/

/-- Trivial collaborators over `Unit` types. -/
def trivialCollab : Collab Unit Unit Unit Unit where
  obs := fun _ => ()
  stepE := fun _ _ => ()
  initQ := ()
  policyFn := fun _ _ => ()
  collectFn := fun _ _ => ()
  trainQ := fun q _ => q
  lossQ := fun _ _ => 0
  sample := fun l n => l.take n
  episodeReward := fun _ _ => 0

/-- The controller state after `TFAModel(...)` followed by `init_agent()`
on the trivial collaborators (agent present, replay buffer still `None`,
`train` never called). -/
def afterInit : TFAModel Unit Unit Unit Unit :=
  TFAModel.init_agent trivialCollab (TFAModel_init () ())

/-- The controller state after `TFAModel(...)`, `init_agent()`,
`build_replay_buffer()` on the trivial collaborators (`train` never
called). -/
def readyModel : TFAModel Unit Unit Unit Unit :=
  { afterInit with repl_buffer := some { max_length := 100000, data := [] } }

/-- A fully-populated parameter mapping (all seven required keys
present): a call with maturity 730 days after the epoch. -/
def pAll : Params :=
  { maturity := some 730, option_type := some "C", spot := some 100,
    strike := some 100, implied_volatility := some (1/5),
    risk_free_rate := some (1/20), dividend_rate := some (1/100) }

/-- A fully-populated parameter mapping violating every numeric range the
spec demands: `spot = -1 ≤ 0`, `strike = -2 ≤ 0`,
`implied_volatility = -1 ≤ 0`, and (against valuation date 365) a
maturity 365 days in the past, giving `maturity_years = -1 ≤ 0`. -/
def pInvalid : Params :=
  { maturity := some 0, option_type := some "P", spot := some (-1),
    strike := some (-2), implied_volatility := some (-1),
    risk_free_rate := some (1/20), dividend_rate := some 0 }

/-! ## Theorems -/

/-- Reduction of `Except` bind on a success value. -/
theorem except_bind_ok (a : α) (f : α → Except ε β) :
    (Except.ok a : Except ε α) >>= f = f a := rfl

/-- Reduction of `Except` bind on an error value. -/
theorem except_bind_error (e : ε) (f : α → Except ε β) :
    (Except.error e : Except ε α) >>= f = Except.error e := rfl

/-- C7 — Contract construction fails with `MissingParameter`
(the source's `Exception("Missing Params")`) if and only if one of the
required keys `maturity`, `option_type`, `spot`, `strike`,
`implied_volatility`, `risk_free_rate`, `dividend_rate` is absent from
the input mapping; with all required fields present it does not raise. -/
theorem option_init_missing_param_iff (params : Params) (today : Int) :
    (Option_init params today = .error (.exception "Missing Params") ↔ ¬ params.allPresent)
    ∧ (params.allPresent → (Option_init params today).isOk = true) := by
  obtain ⟨m, ot, sp, k, iv, r, d⟩ := params
  cases m <;> cases ot <;> cases sp <;> cases k <;> cases iv <;> cases r <;> cases d <;>
    simp [Option_init, getKey, Params.allPresent, Except.isOk, Except.toBool,
      except_bind_ok, except_bind_error]

/-- Witness for C7: on a mapping with all keys present, construction
succeeds. -/
theorem option_init_missing_param_iff_witness :
    (Option_init pAll 0).isOk = true :=
  (option_init_missing_param_iff pAll 0).2 (by decide)

/-- C6 — normalization: whenever the mapping's `maturity` key holds
the date `m` and construction succeeds against valuation date `today`
(the `date.today()` call), the constructed contract's `time` field is
exactly `(m - today) / 365`, the day difference divided by 365. -/
theorem option_init_time_eq (params : Params) (today m : Int)
    (hm : params.maturity = some m) (o : OptionContract)
    (ho : Option_init params today = .ok o) :
    o.time = ((m - today : Int) : Rat) / 365 := by
  obtain ⟨mm, ot, sp, k, iv, r, d⟩ := params
  cases hm
  cases ot <;> cases sp <;> cases k <;> cases iv <;> cases r <;> cases d <;>
    (simp only [Option_init, getKey, except_bind_ok, except_bind_error] at ho;
     cases ho; try rfl)

/-- Witness for C6: maturity 730 days after the epoch, valuation date 0,
giving `time = (730 - 0)/365`. -/
theorem option_init_time_eq_witness :
    ({ name := "BaseOption", option_type := "C", spot := 100, strike := 100,
       time := ((730 - 0 : Int) : Rat) / 365, iv := 1/5, r := 1/20,
       d := 1/100 } : OptionContract).time = ((730 - 0 : Int) : Rat) / 365 :=
  option_init_time_eq pAll 0 730 rfl _ rfl

/-- C8 — immutability: every public accessor of a constructed
contract (`option_type`, `strike_price`, `spot_price`, `time`,
`implied_volatility`, `risk_free_rate`, `dividend_rate`) returns the
value fixed at construction.  The embedded class exposes these attributes
only through read-only `@property` methods and defines no mutating
operation, so the pure-structure embedding — in which no operation can
alter a constructed value — is faithful. -/
theorem option_accessors_fixed (today m : Int) (ot : String) (sp k iv r d : Rat)
    (o : OptionContract)
    (ho : Option_init ⟨some m, some ot, some sp, some k, some iv, some r, some d⟩ today = .ok o) :
    o.option_type = ot ∧ o.strike_price = k ∧ o.spot_price = sp ∧
    o.time = ((m - today : Int) : Rat) / 365 ∧ o.implied_volatility = iv ∧
    o.risk_free_rate = r ∧ o.dividend_rate = d := by
  simp only [Option_init, getKey, except_bind_ok] at ho
  cases ho
  simp [OptionContract.strike_price, OptionContract.spot_price,
    OptionContract.implied_volatility, OptionContract.risk_free_rate,
    OptionContract.dividend_rate]

/-- Witness for C8: the accessors of the contract constructed from
`pAll`'s values return exactly those values. -/
theorem option_accessors_fixed_witness :
    ({ name := "BaseOption", option_type := "C", spot := 100, strike := 100,
       time := ((730 - 0 : Int) : Rat) / 365, iv := 1/5, r := 1/20,
       d := 1/100 } : OptionContract).option_type = "C" ∧
    ({ name := "BaseOption", option_type := "C", spot := 100, strike := 100,
       time := ((730 - 0 : Int) : Rat) / 365, iv := 1/5, r := 1/20,
       d := 1/100 } : OptionContract).strike_price = 100 ∧
    ({ name := "BaseOption", option_type := "C", spot := 100, strike := 100,
       time := ((730 - 0 : Int) : Rat) / 365, iv := 1/5, r := 1/20,
       d := 1/100 } : OptionContract).spot_price = 100 ∧
    ({ name := "BaseOption", option_type := "C", spot := 100, strike := 100,
       time := ((730 - 0 : Int) : Rat) / 365, iv := 1/5, r := 1/20,
       d := 1/100 } : OptionContract).time = ((730 - 0 : Int) : Rat) / 365 ∧
    ({ name := "BaseOption", option_type := "C", spot := 100, strike := 100,
       time := ((730 - 0 : Int) : Rat) / 365, iv := 1/5, r := 1/20,
       d := 1/100 } : OptionContract).implied_volatility = 1/5 ∧
    ({ name := "BaseOption", option_type := "C", spot := 100, strike := 100,
       time := ((730 - 0 : Int) : Rat) / 365, iv := 1/5, r := 1/20,
       d := 1/100 } : OptionContract).risk_free_rate = 1/20 ∧
    ({ name := "BaseOption", option_type := "C", spot := 100, strike := 100,
       time := ((730 - 0 : Int) : Rat) / 365, iv := 1/5, r := 1/20,
       d := 1/100 } : OptionContract).dividend_rate = 1/100 :=
  option_accessors_fixed 0 730 "C" 100 100 (1/5) (1/20) (1/100) _ rfl

/-- C1 (counterexample) — the claim "construction raises
`InvalidContract` for every invalid mapping" fails at `pInvalid` with
valuation date 365: every key is present but `spot = -1 ≤ 0`,
`strike = -2 ≤ 0`, `implied_volatility = -1 ≤ 0` and
`maturity_years = (0 - 365)/365 = -1 ≤ 0`, yet construction returns a
contract instead of raising. -/
theorem option_init_accepts_invalid_input :
    (Option_init pInvalid 365).isOk = true := rfl

/-- C1 (amended) — `Option.__init__` performs no value-range
validation: for every mapping with all seven required keys present it
returns a contract — in particular for every mapping whose values the
spec expects to be rejected with `InvalidContract`
(`maturity_years ≤ 0`, `implied_volatility ≤ 0`, `spot`/`strike` ≤ 0).
Construction fails only when a key is missing. -/
theorem option_init_no_range_validation (m today : Int) (ot : String)
    (sp k iv r d : Rat) :
    ∃ o, Option_init ⟨some m, some ot, some sp, some k, some iv, some r, some d⟩ today
      = .ok o :=
  ⟨_, rfl⟩

/-- C3 — fail-fast lifecycle: a freshly constructed controller has
neither agent nor replay buffer; for every controller state in which
`init_agent` has not run (`_agent is None`, as after construction)
`build_replay_buffer` raises `AgentNotInitialized`
(`Exception("Agent has not been initialized")`); for every state in
which `build_replay_buffer` has not run (`_repl_buffer is None` — in
particular right after `init_agent`, which leaves the buffer untouched,
as the last conjunct shows) `train` raises `BufferNotBuilt`
(`Exception("Unbuilt replay buffer")`). -/
theorem lifecycle_fail_fast (c : Collab E T A Q) (e1 e2 : E)
    (s : TFAModel E T A Q) :
    ((TFAModel_init e1 e2 : TFAModel E T A Q).agent = none ∧
     (TFAModel_init e1 e2 : TFAModel E T A Q).repl_buffer = none) ∧
    (s.agent = none →
      TFAModel.build_replay_buffer s
        = .error (.exception "Agent has not been initialized")) ∧
    (s.repl_buffer = none →
      TFAModel.train c s = .error (.exception "Unbuilt replay buffer")) ∧
    (TFAModel.init_agent c s).repl_buffer = s.repl_buffer := by
  refine ⟨⟨rfl, rfl⟩, ?_, ?_, rfl⟩
  · intro h
    simp [TFAModel.build_replay_buffer, h]
  · intro h
    simp [TFAModel.train, h]

/-- Witness for C3: on a freshly constructed controller,
`build_replay_buffer` raises; after `init_agent` alone, `train`
raises. -/
theorem lifecycle_fail_fast_witness :
    TFAModel.build_replay_buffer (TFAModel_init () () : TFAModel Unit Unit Unit Unit)
      = .error (.exception "Agent has not been initialized") ∧
    TFAModel.train trivialCollab afterInit
      = .error (.exception "Unbuilt replay buffer") :=
  ⟨(lifecycle_fail_fast trivialCollab () () (TFAModel_init () ())).2.1 rfl,
   (lifecycle_fail_fast trivialCollab () () afterInit).2.2.1 rfl⟩

/-- C2 (counterexample) — after the lifecycle `TFAModel(...)`,
`init_agent()`, `build_replay_buffer()` with `train` never called, the
controller is in state `readyModel`, and `calculate_npv` succeeds (it
produces an NPV) instead of raising `NotTrained`; no trained-state check
exists in the code. -/
theorem calculate_npv_without_train :
    TFAModel.build_replay_buffer afterInit = .ok readyModel ∧
    (TFAModel.calculate_npv trivialCollab readyModel).isOk = true :=
  ⟨rfl, rfl⟩

/-- C2 (amended) — `calculate_npv` performs no training-completion
check: it fails only with the `AttributeError` of evaluating
`self._agent.policy` when the agent was never initialized; whenever the
agent exists — whether or not `train` has run — it computes and stores
an NPV from the current greedy policy. -/
theorem calculate_npv_no_trained_check (c : Collab E T A Q)
    (s : TFAModel E T A Q) :
    (s.agent = none → TFAModel.calculate_npv c s = .error .attributeError) ∧
    (∀ ag : AgentT Q, s.agent = some ag →
      TFAModel.calculate_npv c s =
        .ok ({ s with
               npv := some (dqn_sim (c.episodeReward (c.policyFn ag.q)) s.n_sims),
               priced := true },
             (dqn_sim_display (c.episodeReward (c.policyFn ag.q)) s.n_sims).2)) := by
  constructor
  · intro h
    simp [TFAModel.calculate_npv, ofAttr, h, except_bind_error]
  · intro ag h
    simp [TFAModel.calculate_npv, ofAttr, h, except_bind_ok, dqn_sim,
      dqn_sim_display]

/-- Witness for C2 (amended): on `afterInit` (agent initialized, train
never run) `calculate_npv` returns the rollout mean as NPV. -/
theorem calculate_npv_no_trained_check_witness :
    TFAModel.calculate_npv trivialCollab afterInit =
      .ok ({ afterInit with
             npv := some (dqn_sim (trivialCollab.episodeReward
               (trivialCollab.policyFn ())) afterInit.n_sims),
             priced := true },
           (dqn_sim_display (trivialCollab.episodeReward
             (trivialCollab.policyFn ())) afterInit.n_sims).2) :=
  (calculate_npv_no_trained_check trivialCollab afterInit).2 ⟨(), 0⟩ rfl

/-- C9 — `_collect_data` is a no-op: its only statement evaluates the
generator expression over `_collect_step` and discards the resulting
generator unconsumed, so for every environment, policy, buffer and step
count it performs zero collection steps and leaves environment and
buffer unchanged.  Had the generator been consumed it would have iterated
`_collect_step` `steps` times — exactly the collection phase that the
explicit `for` loop of `_train_iteration` performs. -/
theorem collect_data_noop (c : Collab E T A Q) (env : E) (policy : T → A)
    (buffer : RBuf T A) (steps : Nat) :
    collect_data c env policy buffer steps = (env, buffer) ∧
    GenExpr.consume
        { body := fun p : E × RBuf T A => collect_step c p.1 policy p.2,
          count := steps }
        (env, buffer)
      = collectIter c policy steps (env, buffer) :=
  ⟨rfl, rfl⟩

/-- C5 — `calculate_npv` rolls out the trained greedy policy
(`self._agent.policy`) over `_n_sims` independent simulated episodes,
stores the mean of the realized discounted episode rewards as the
reported NPV (`self._npv`), and reports per-episode statistics — their
mean, standard deviation (recorded by its square, `var`), and the
episode count — as diagnostics. -/
theorem calculate_npv_spec (c : Collab E T A Q) (s : TFAModel E T A Q)
    (ag : AgentT Q) (hag : s.agent = some ag) :
    TFAModel.calculate_npv c s =
      .ok ({ s with
             npv := some (listMean (rollouts
               (c.episodeReward (c.policyFn ag.q)) s.n_sims)),
             priced := true },
           { mean := listMean (rollouts
               (c.episodeReward (c.policyFn ag.q)) s.n_sims),
             var := listVar (rollouts
               (c.episodeReward (c.policyFn ag.q)) s.n_sims),
             count := s.n_sims }) := by
  simp [TFAModel.calculate_npv, ofAttr, hag, except_bind_ok, dqn_sim_display,
    rollouts]

/-- Witness for C5 at the concrete ready state. -/
theorem calculate_npv_spec_witness :
    TFAModel.calculate_npv trivialCollab readyModel =
      .ok ({ readyModel with
             npv := some (listMean (rollouts
               (trivialCollab.episodeReward (trivialCollab.policyFn ()))
               readyModel.n_sims)),
             priced := true },
           { mean := listMean (rollouts
               (trivialCollab.episodeReward (trivialCollab.policyFn ()))
               readyModel.n_sims),
             var := listVar (rollouts
               (trivialCollab.episodeReward (trivialCollab.policyFn ()))
               readyModel.n_sims),
             count := readyModel.n_sims }) :=
  calculate_npv_spec trivialCollab readyModel ⟨(), 0⟩ rfl

/-- C4 — one iteration of training: from any controller state with
agent `ag` and buffer `buf`, `_train_iteration` succeeds and
(a) runs `_collect_step` exactly `collect_steps_per_iteration` times
with the exploration policy `agent.collect_policy` against the training
environment, threading each resulting transition into the replay buffer
(`collectIter`); (b) samples one batch from the buffer and performs
exactly one optimizer step, advancing `train_step_counter` by one;
(c) appends a loss log entry exactly when the new step count is
divisible by `log_interval`; and (d) exactly when the new step count is
divisible by `eval_interval`, rolls out the greedy policy
(`agent.policy`) over the fixed `num_eval_episodes` evaluation episodes
via `dqn_sim` and appends the mean return to both the log and the
returns series; otherwise log and returns are untouched. -/
theorem train_iteration_spec (c : Collab E T A Q) (s : TFAModel E T A Q)
    (ag : AgentT Q) (buf : RBuf T A)
    (hag : s.agent = some ag) (hbuf : s.repl_buffer = some buf) :
    ∃ s' buf', TFAModel.train_iteration c s = .ok s' ∧
      s'.repl_buffer = some buf' ∧
      (s'.train_env, buf') =
        collectIter c (c.collectFn ag.q) s.collect_steps_per_iteration
          (s.train_env, buf) ∧
      s'.agent = some
        { q := c.trainQ ag.q (c.sample buf'.data s.batch_size),
          train_step_counter := ag.train_step_counter + 1 } ∧
      s'.returns = s.returns ++
        (if (ag.train_step_counter + 1) % s.eval_interval = 0 then
          [dqn_sim (c.episodeReward (c.policyFn
              (c.trainQ ag.q (c.sample buf'.data s.batch_size))))
            s.num_eval_episodes]
         else []) ∧
      s'.log =
        (if (ag.train_step_counter + 1) % s.log_interval = 0 then
          s.log ++ [("step = " ++ toString (ag.train_step_counter + 1),
                     "loss = " ++ toString (c.lossQ ag.q
                       (c.sample buf'.data s.batch_size)))]
         else s.log) ++
        (if (ag.train_step_counter + 1) % s.eval_interval = 0 then
          [("step = " ++ toString (ag.train_step_counter + 1),
            "Average Return = " ++ toString
              (dqn_sim (c.episodeReward (c.policyFn
                (c.trainQ ag.q (c.sample buf'.data s.batch_size))))
                s.num_eval_episodes))]
         else []) := by
  simp only [TFAModel.train_iteration, hag, hbuf, ofAttr, except_bind_ok]
  split <;> rename_i h <;> simp only [beq_iff_eq] at h
  · exact ⟨_, _, rfl, rfl, rfl, rfl, by simp [h, collectIter],
      by simp [h, collectIter]⟩
  · exact ⟨_, _, rfl, rfl, rfl, rfl, by simp [h, collectIter],
      by simp [h, collectIter]⟩

/-- Witness for C4 at the concrete ready state (step 0 → 1,
`eval_interval = 5` so no evaluation, `log_interval = 1` so a loss
entry is appended). -/
theorem train_iteration_spec_witness :
    ∃ (s' : TFAModel Unit Unit Unit Unit) (buf' : RBuf Unit Unit),
      TFAModel.train_iteration trivialCollab readyModel = .ok s' ∧
      s'.repl_buffer = some buf' ∧
      (s'.train_env, buf') =
        collectIter trivialCollab (trivialCollab.collectFn ())
          readyModel.collect_steps_per_iteration
          (readyModel.train_env, { max_length := 100000, data := [] }) ∧
      s'.agent = some
        { q := trivialCollab.trainQ ()
            (trivialCollab.sample buf'.data readyModel.batch_size),
          train_step_counter := 0 + 1 } ∧
      s'.returns = readyModel.returns ++
        (if (0 + 1) % readyModel.eval_interval = 0 then
          [dqn_sim (trivialCollab.episodeReward (trivialCollab.policyFn
              (trivialCollab.trainQ ()
                (trivialCollab.sample buf'.data readyModel.batch_size))))
            readyModel.num_eval_episodes]
         else []) ∧
      s'.log =
        (if (0 + 1) % readyModel.log_interval = 0 then
          readyModel.log ++ [("step = " ++ toString (0 + 1),
                     "loss = " ++ toString (trivialCollab.lossQ ()
                       (trivialCollab.sample buf'.data readyModel.batch_size)))]
         else readyModel.log) ++
        (if (0 + 1) % readyModel.eval_interval = 0 then
          [("step = " ++ toString (0 + 1),
            "Average Return = " ++ toString
              (dqn_sim (trivialCollab.episodeReward (trivialCollab.policyFn
                (trivialCollab.trainQ ()
                  (trivialCollab.sample buf'.data readyModel.batch_size))))
                readyModel.num_eval_episodes))]
         else []) :=
  train_iteration_spec trivialCollab readyModel ⟨(), 0⟩
    { max_length := 100000, data := [] } rfl rfl

/-- Helper: one `_train_iteration` step viewed for the returns-length
invariant — it succeeds, advances the step counter by one, keeps agent
and buffer present, preserves the hyperparameters, and grows the returns
series by one entry exactly when the new step count is a multiple of
`eval_interval`. -/
theorem train_iteration_inv (c : Collab E T A Q) (s : TFAModel E T A Q)
    (ag : AgentT Q) (buf : RBuf T A)
    (hag : s.agent = some ag) (hbuf : s.repl_buffer = some buf) :
    ∃ s' ag2 buf2, TFAModel.train_iteration c s = .ok s' ∧
      s'.agent = some ag2 ∧
      ag2.train_step_counter = ag.train_step_counter + 1 ∧
      s'.repl_buffer = some buf2 ∧
      s'.num_iterations = s.num_iterations ∧
      s'.eval_interval = s.eval_interval ∧
      s'.returns.length = s.returns.length +
        (if s.eval_interval ∣ (ag.train_step_counter + 1) then 1 else 0) := by
  simp only [TFAModel.train_iteration, hag, hbuf, ofAttr, except_bind_ok]
  split <;> rename_i h <;> simp only [beq_iff_eq] at h
  · refine ⟨_, _, _, rfl, rfl, rfl, rfl, rfl, rfl, ?_⟩
    have hd : s.eval_interval ∣ (ag.train_step_counter + 1) :=
      Nat.dvd_of_mod_eq_zero h
    simp [hd]
  · refine ⟨_, _, _, rfl, rfl, rfl, rfl, rfl, rfl, ?_⟩
    have hd : ¬ s.eval_interval ∣ (ag.train_step_counter + 1) :=
      fun hdvd => h (Nat.mod_eq_zero_of_dvd hdvd)
    simp [hd]

/-- Helper: the training loop run for `n` iterations from a state with
an agent and a buffer succeeds, preserves `num_iterations` and
`eval_interval`, and grows the returns series by the number of multiples
of `eval_interval` among the `n` step counts it passes through
(stated additively to stay in `Nat`). -/
theorem train_loop_inv (c : Collab E T A Q) :
    ∀ (n : Nat) (s : TFAModel E T A Q) (ag : AgentT Q),
      s.agent = some ag → (∃ b, s.repl_buffer = some b) →
      ∃ s', TFAModel.train_loop c n s = .ok s' ∧
        s'.num_iterations = s.num_iterations ∧
        s'.eval_interval = s.eval_interval ∧
        s'.returns.length + ag.train_step_counter / s.eval_interval
          = s.returns.length
            + (ag.train_step_counter + n) / s.eval_interval := by
  intro n
  induction n with
  | zero =>
    intro s ag hag hbuf
    exact ⟨s, rfl, rfl, rfl, by simp⟩
  | succ n ih =>
    intro s ag hag hbuf
    obtain ⟨b, hb⟩ := hbuf
    obtain ⟨s1, ag2, b2, hstep, hag2, hctr, hb2, hNI, hEI, hlen⟩ :=
      train_iteration_inv c s ag b hag hb
    obtain ⟨s2, hloop, hNI2, hEI2, hlen2⟩ := ih s1 ag2 hag2 ⟨b2, hb2⟩
    refine ⟨s2, ?_, by rw [hNI2, hNI], by rw [hEI2, hEI], ?_⟩
    · simp [TFAModel.train_loop, hstep, except_bind_ok, hloop]
    · rw [hctr, hEI, hlen] at hlen2
      have harg : ag.train_step_counter + 1 + n
          = ag.train_step_counter + (n + 1) := by omega
      rw [harg] at hlen2
      have hsd := Nat.succ_div ag.train_step_counter s.eval_interval
      by_cases hd : s.eval_interval ∣ (ag.train_step_counter + 1) <;>
        simp only [hd, if_true, if_false, reduceIte] at hsd hlen2 <;>
        omega

/-- Helper: the length of the modelled `range(0, stop, step)`. -/
theorem pyRange_zero_length (stop step : Nat) :
    (pyRange 0 stop step).length = (stop + step - 1) / step := by
  simp [pyRange]

/-- C10 — after `train` completes (which it does from every state
with an initialized agent and a built buffer), the two series of
`train_iteration_dict` have equal length: the `"Iterations"` list
`range(0, num_iterations + 1, eval_interval)` has
`num_iterations / eval_interval + 1` entries, and the
`"Average Return"` list holds the initial evaluation plus one entry per
step count in `1..num_iterations` divisible by `eval_interval` — also
`num_iterations / eval_interval + 1` entries (the step counter is reset
to 0 by `train` and advances by one per iteration).  Requires
`eval_interval ≥ 1` (with `eval_interval = 0` the Python `%` would
raise). -/
theorem train_iteration_dict_lengths (c : Collab E T A Q)
    (s : TFAModel E T A Q) (ag : AgentT Q) (buf : RBuf T A)
    (hag : s.agent = some ag) (hbuf : s.repl_buffer = some buf)
    (hE : 0 < s.eval_interval) :
    ∃ s', TFAModel.train c s = .ok s' ∧
      (TFAModel.train_iteration_dict s').1.length
        = s.num_iterations / s.eval_interval + 1 ∧
      (TFAModel.train_iteration_dict s').2.length
        = s.num_iterations / s.eval_interval + 1 := by
  obtain ⟨s', hloop, hNI, hEI, hlen⟩ :=
    train_loop_inv c s.num_iterations
      { s with
        agent := some { ag with train_step_counter := 0 },
        log := [("Step = 0", "Average Return = " ++ toString
          (dqn_sim (c.episodeReward (c.policyFn ag.q)) s.num_eval_episodes))],
        returns := [dqn_sim (c.episodeReward (c.policyFn ag.q))
          s.num_eval_episodes] }
      { ag with train_step_counter := 0 } rfl ⟨buf, hbuf⟩
  refine ⟨s', ?_, ?_, ?_⟩
  · simp only [TFAModel.train, hbuf, hag, ofAttr, except_bind_ok,
      Option.isNone_some, Bool.false_eq_true, if_false, ite_false]
    rw [← hbuf]
    exact hloop
  · simp only [TFAModel.train_iteration_dict, List.length_map,
      pyRange_zero_length, hNI, hEI]
    have harg : s.num_iterations + 1 + s.eval_interval - 1
        = s.num_iterations + s.eval_interval := by omega
    rw [harg, Nat.add_div_right _ hE]
  · simp only [TFAModel.train_iteration_dict] at *
    simp only [Nat.zero_div, Nat.add_zero, Nat.zero_add,
      List.length_singleton] at hlen
    rw [hlen, Nat.add_comm]

/-- Witness for C10 at the concrete ready state
(`num_iterations = 20`, `eval_interval = 5`): both series end up with
`20 / 5 + 1 = 5` entries. -/
theorem train_iteration_dict_lengths_witness :
    ∃ s', TFAModel.train trivialCollab readyModel = .ok s' ∧
      (TFAModel.train_iteration_dict s').1.length
        = readyModel.num_iterations / readyModel.eval_interval + 1 ∧
      (TFAModel.train_iteration_dict s').2.length
        = readyModel.num_iterations / readyModel.eval_interval + 1 :=
  train_iteration_dict_lengths trivialCollab readyModel ⟨(), 0⟩
    { max_length := 100000, data := [] } rfl rfl (by decide)

end OptionsPricing
